import Mathlib

/-!
Shallow embedding of the abyss-reddit-curator content pipeline
(`reddit_scraper.py`, `topic_fetcher.py`, `service.py`) and proofs of the
specification's claims about it.

Remote HTTP interactions are modelled by environment records whose fields
map a request's parameters to the parsed response (or to a transport /
parse failure).  Every embedded fetcher returns the pair of its Python
result — an `Except` value standing for "returned normally or raised" —
and the ordered list of network requests it issued.
-/

/- ### Python string primitives

Python `str` is embedded as Lean `String` (a list of characters in this
toolchain).  The slicing, lowering, replacement, containment and join
operations used by the sources are defined here over `String.data` so that
they compute by kernel reduction. -/

/-- Python `s[:n]`: the first `n` characters of `s`. -/
def pyTake (s : String) (n : Nat) : String := String.mk (s.data.take n)

/-- Python `s.lower()`. -/
def pyLower (s : String) : String := String.mk (s.data.map Char.toLower)

/-- Fuel-bounded all-occurrence replacement on character lists; with
`fuel ≥ l.length` and a nonempty pattern this is Python
`l.replace(pat, rep)`.  An empty pattern never matches (the sources only
replace nonempty literals). -/
def replaceFuel (pat rep : List Char) : Nat → List Char → List Char
  | _, [] => []
  | 0, l => l
  | fuel + 1, c :: rest =>
    if pat.isPrefixOf (c :: rest) ∧ pat ≠ [] then
      rep ++ replaceFuel pat rep fuel (List.drop (pat.length - 1) rest)
    else
      c :: replaceFuel pat rep fuel rest

/-- Python `s.replace(pat, rep)` (nonempty `pat`). -/
def pyReplace (s pat rep : String) : String :=
  String.mk (replaceFuel pat.data rep.data s.data.length s.data)

/-- Whether `pat` occurs as a contiguous run inside `l`. -/
def listHasRun (pat : List Char) : List Char → Bool
  | [] => pat.isPrefixOf []
  | c :: rest => pat.isPrefixOf (c :: rest) || listHasRun pat rest

/-- Python `sub in s` for strings. -/
def pyContains (s sub : String) : Bool := listHasRun sub.data s.data

/-- Python `sep.join(xs)`. -/
def pyJoin (sep : String) : List String → String
  | [] => ""
  | [x] => x
  | x :: y :: rest => x ++ sep ++ pyJoin sep (y :: rest)

/- ### Exceptions and remote outcomes -/

/-- The Python exception kinds the sources raise or catch.  The payload is
`str(e)`, the exception's message. -/
inductive PyExc where
  /-- `RedditScraperError` (reddit_scraper.py's own taxonomy). -/
  | scraperError (msg : String)
  /-- `ContentFetcherError` (topic_fetcher.py's own taxonomy). -/
  | fetcherError (msg : String)
  /-- `requests.exceptions.RequestException` (transport/HTTP failure). -/
  | requestExc (msg : String)
  /-- `json.JSONDecodeError` (also a `ValueError`). -/
  | jsonExc (msg : String)
  /-- Any other `Exception`. -/
  | otherExc (msg : String)
  deriving DecidableEq

/-- Result of one remote JSON request: parsed payload, transport/HTTP
error (`requests.get` raising or `raise_for_status`), or `response.json()`
failing to parse. -/
inductive RemoteOutcome (α : Type) where
  | ok (val : α)
  | httpError (msg : String)
  | parseError (msg : String)

/-- `Except.mapError`, applied to re-raise an exception transformed by an
`except` handler chain. -/
def excMapErr {α : Type} (f : PyExc → PyExc) : Except PyExc α → Except PyExc α
  | .error e => .error (f e)
  | .ok a => .ok a

/-- One outbound network request, identified by endpoint and parameters. -/
inductive Call where
  /-- GET `/r/{subreddit}/about.json`. -/
  | aboutReq (subreddit : String)
  /-- GET `/r/{subreddit}/top.json?t={timeFilter}&limit={limit}`. -/
  | topReq (subreddit : String) (timeFilter : String) (limit : Nat)
  /-- Wiki `list=search` query with `srsearch={query}&srlimit={limit}`. -/
  | searchReq (query : String) (limit : Nat)
  /-- Wiki `prop=extracts&exintro=1` query for `pageids={pageid}`. -/
  | introReq (pageid : Nat)
  /-- Wiki `prop=extracts` (full text) query for `pageids={pageid}`. -/
  | fullReq (pageid : Nat)
  /-- Wiki `prop=links` query for `pageids={pageid}`. -/
  | linksReq (pageid : Nat)
  deriving DecidableEq

/- ### reddit_scraper.py -/

/-- The `data` dict of a parsed `about.json` response; `none` fields model
keys absent from the payload (each use site applies its `.get` default). -/
structure SubredditData where
  display_name : Option String
  title : Option String
  public_description : Option String
  subscribers : Option Nat
  created_utc : Option Nat
  over18 : Option Bool
  deriving DecidableEq

/-- Outcome of the `about.json` request: the 404 status is checked before
`raise_for_status`, so it is its own case. -/
inductive AboutOutcome where
  | ok (val : SubredditData)
  | status404
  | httpError (msg : String)
  | parseError (msg : String)

/-- The subreddit-info dict built by `fetch_subreddit_info`. -/
structure SubredditInfo where
  name : String
  title : String
  description : String
  subscribers : Nat
  created_utc : Nat
  over18 : Bool
  url : String
  deriving DecidableEq

/-- The `data` dict of one post inside a parsed `top.json` listing;
`none` fields model absent keys. -/
structure RawPost where
  title : Option String
  score : Option Int
  url : Option String
  selftext : Option String
  num_comments : Option Nat
  created_utc : Option Nat
  permalink : Option String
  is_self : Option Bool
  author : Option String
  deriving DecidableEq

/-- The normalized post dict produced by `get_subreddit_top_posts`.  The
`created_formatted` field (a pure strftime rendering of `created_utc`,
touched by no claim) is not modelled. -/
structure Post where
  title : String
  score : Int
  url : String
  selftext : String
  num_comments : Nat
  created_utc : Nat
  permalink : String
  is_self : Bool
  subreddit : String
  author : String
  deriving DecidableEq

/-- Remote responses for the Reddit JSON API. -/
structure RedditEnv where
  aboutResp : String → AboutOutcome
  topResp : String → String → Nat → RemoteOutcome (List RawPost)

/-- Handler chain of `fetch_subreddit_info`: `RequestException` and
`JSONDecodeError`/`ValueError` get their specific wrappers, and the final
`except Exception` catches everything else — including the function's own
`RedditScraperError` raised for a 404 inside the `try` block. -/
def redditInfoHandler : PyExc → PyExc
  | .requestExc m => .scraperError ("Error fetching subreddit information: " ++ m)
  | .jsonExc m => .scraperError ("Error parsing subreddit data: " ++ m)
  | .scraperError m => .scraperError ("Unexpected error fetching subreddit info: " ++ m)
  | .fetcherError m => .scraperError ("Unexpected error fetching subreddit info: " ++ m)
  | .otherExc m => .scraperError ("Unexpected error fetching subreddit info: " ++ m)

/-- `fetch_subreddit_info(subreddit_name)`. -/
def fetch_subreddit_info (env : RedditEnv) (subreddit_name : String) :
    Except PyExc SubredditInfo × List Call :=
  let body : Except PyExc SubredditInfo :=
    match env.aboutResp subreddit_name with
    | .status404 =>
      .error (.scraperError ("Subreddit r/" ++ subreddit_name ++ " not found"))
    | .httpError m => .error (.requestExc m)
    | .parseError m => .error (.jsonExc m)
    | .ok d =>
      .ok
        { name := d.display_name.getD subreddit_name
          title := d.title.getD ""
          description := d.public_description.getD ""
          subscribers := d.subscribers.getD 0
          created_utc := d.created_utc.getD 0
          over18 := d.over18.getD false
          url := "https://www.reddit.com/r/" ++ subreddit_name ++ "/" }
  (excMapErr redditInfoHandler body, [Call.aboutReq subreddit_name])

/-- Per-item normalization inside `get_subreddit_top_posts`. -/
def normalizePost (subreddit_name : String) (p : RawPost) : Post :=
  let selftext0 := p.selftext.getD ""
  let selftext1 :=
    if selftext0 = "" ∧ p.is_self.getD false = true then
      "[No text content available]"
    else selftext0
  let selftext2 :=
    if selftext1.length > 2000 then
      pyTake selftext1 2000 ++ "... [truncated]"
    else selftext1
  { title := p.title.getD ""
    score := p.score.getD 0
    url := p.url.getD ""
    selftext := selftext2
    num_comments := p.num_comments.getD 0
    created_utc := p.created_utc.getD 0
    permalink := "https://www.reddit.com" ++ p.permalink.getD ""
    is_self := p.is_self.getD false
    subreddit := subreddit_name
    author := p.author.getD "[deleted]" }

/-- `valid_time_filters` from `get_subreddit_top_posts`. -/
def valid_time_filters : List String := ["day", "week", "month", "year", "all"]

/-- Outer handler of `get_subreddit_top_posts`: `except RedditScraperError:
raise` passes the fetcher's own kind through; anything else is wrapped. -/
def topPostsOuterHandler (subreddit_name : String) : PyExc → PyExc
  | .scraperError m => .scraperError m
  | .requestExc m =>
    .scraperError ("Error fetching posts from r/" ++ subreddit_name ++ ": " ++ m)
  | .jsonExc m =>
    .scraperError ("Error fetching posts from r/" ++ subreddit_name ++ ": " ++ m)
  | .fetcherError m =>
    .scraperError ("Error fetching posts from r/" ++ subreddit_name ++ ": " ++ m)
  | .otherExc m =>
    .scraperError ("Error fetching posts from r/" ++ subreddit_name ++ ": " ++ m)

/-- `get_subreddit_top_posts(subreddit_name, limit, time_filter)`. -/
def get_subreddit_top_posts (env : RedditEnv) (subreddit_name : String)
    (limit : Nat) (time_filter : String) :
    Except PyExc (List Post × SubredditInfo) × List Call :=
  let run : Except PyExc (List Post × SubredditInfo) × List Call :=
    if time_filter ∈ valid_time_filters then
      let info := fetch_subreddit_info env subreddit_name
      match info.1 with
      | .error e => (.error e, info.2)
      | .ok subreddit_info =>
        let trace := info.2 ++ [Call.topReq subreddit_name time_filter limit]
        match env.topResp subreddit_name time_filter limit with
        | .httpError m =>
          (.error (.scraperError
            ("Error fetching posts from r/" ++ subreddit_name ++ ": " ++ m)), trace)
        | .parseError m =>
          (.error (.scraperError ("Error parsing Reddit data: " ++ m)), trace)
        | .ok rawPosts =>
          let posts := rawPosts.map (normalizePost subreddit_name)
          if posts.isEmpty then
            (.error (.scraperError
              ("No posts found in r/" ++ subreddit_name ++ " with time filter \x27"
                ++ time_filter ++ "\x27")), trace)
          else (.ok (posts, subreddit_info), trace)
    else
      (.error (.scraperError
        ("Invalid time filter: " ++ time_filter
          ++ ". Valid options are: day, week, month, year, all")), [])
  (excMapErr (topPostsOuterHandler subreddit_name) run.1, run.2)

/- ### topic_fetcher.py -/

/-- One raw element of a `query.search` response list; `none` fields model
absent keys (each use site applies its `.get` default). -/
structure SearchHitRaw where
  title : Option String
  pageid : Option Nat
  snippet : Option String
  score : Option Nat
  size : Option Nat
  wordcount : Option Nat
  timestamp : Option String
  deriving DecidableEq

/-- The search-hit dict built by `search_wikipedia`. -/
structure SearchResult where
  title : String
  pageid : Nat
  snippet : String
  score : Nat
  size : Nat
  wordcount : Nat
  timestamp : String
  deriving DecidableEq

/-- The `pages[str(pageid)]` dict of an extracts/categories query;
`missing` records whether the `"missing"` key is present, `none` fields
model absent keys, and `categories` holds the raw per-category `title`
entries. -/
structure PageData where
  missing : Bool
  title : Option String
  extract : Option String
  fullurl : Option String
  categories : List (Option String)
  touched : Option String
  deriving DecidableEq

/-- The article dict built by `get_article_content` /
`get_full_article_content`. -/
structure WikiArticle where
  title : String
  content : String
  url : String
  categories : List String
  last_modified : String
  pageid : Nat
  deriving DecidableEq

/-- Remote responses for the Wikipedia query API.  `introResp`/`fullResp`
return `none` for a `pages` entry that is absent or empty (the dict-`.get`
default); `linksResp` returns the `links` list of the page entry, already
defaulted to `[]` when the page or the key is absent, each element being
the link dict's optional `title`.  `nowIso` is `datetime.now().isoformat()`
at the moment `get_topic_content` builds its metadata. -/
structure WikiEnv where
  searchResp : String → Nat → RemoteOutcome (List SearchHitRaw)
  introResp : Nat → RemoteOutcome (Option PageData)
  fullResp : Nat → RemoteOutcome (Option PageData)
  linksResp : Nat → RemoteOutcome (List (Option String))
  nowIso : String

/-- Handler chain shared by the wiki fetchers: a specific wrapper for
`RequestException`, one for `JSONDecodeError`, and a final
`except Exception` that also catches the module's own
`ContentFetcherError`. -/
def wikiHandler (reqMsg parseMsg otherMsg : String) : PyExc → PyExc
  | .requestExc m => .fetcherError (reqMsg ++ m)
  | .jsonExc m => .fetcherError (parseMsg ++ m)
  | .fetcherError m => .fetcherError (otherMsg ++ m)
  | .scraperError m => .fetcherError (otherMsg ++ m)
  | .otherExc m => .fetcherError (otherMsg ++ m)

/-- Per-hit cleanup inside `search_wikipedia` (markup stripped from the
snippet, `.get` defaults applied). -/
def cleanHit (r : SearchHitRaw) : SearchResult :=
  let snippet0 := r.snippet.getD ""
  let snippet1 := pyReplace snippet0 "<span class=\"searchmatch\">" ""
  let snippet2 := pyReplace snippet1 "</span>" ""
  { title := r.title.getD ""
    pageid := r.pageid.getD 0
    snippet := snippet2
    score := r.score.getD 0
    size := r.size.getD 0
    wordcount := r.wordcount.getD 0
    timestamp := r.timestamp.getD "" }

/-- `search_wikipedia(topic, limit)`. -/
def search_wikipedia (env : WikiEnv) (topic : String) (limit : Nat) :
    Except PyExc (List SearchResult) × List Call :=
  let body : Except PyExc (List SearchResult) :=
    match env.searchResp topic limit with
    | .httpError m => .error (.requestExc m)
    | .parseError m => .error (.jsonExc m)
    | .ok raw =>
      let search_results := raw.map cleanHit
      if search_results.isEmpty then
        .error (.fetcherError ("No Wikipedia articles found for topic: " ++ topic))
      else .ok search_results
  (excMapErr
    (wikiHandler "Error searching Wikipedia: " "Error parsing Wikipedia search results: "
      "Unexpected error during Wikipedia search: ") body,
   [Call.searchReq topic limit])

/-- The "not found" message shared by the two article fetchers. -/
def articleNotFoundMsg (pageid : Nat) : String :=
  "Wikipedia article with page ID " ++ toString pageid ++ " not found"

/-- The article dict fields common to intro and full fetches. -/
def mkArticle (pd : PageData) (pageid : Nat) (content : String) : WikiArticle :=
  { title := pd.title.getD ""
    content := content
    url := pd.fullurl.getD ("https://en.wikipedia.org/?curid=" ++ toString pageid)
    categories := pd.categories.map (fun c => pyReplace (c.getD "") "Category:" "")
    last_modified := pd.touched.getD ""
    pageid := pageid }

/-- `get_article_content(pageid)`: intro extract only, never truncated. -/
def get_article_content (env : WikiEnv) (pageid : Nat) :
    Except PyExc WikiArticle × List Call :=
  let body : Except PyExc WikiArticle :=
    match env.introResp pageid with
    | .httpError m => .error (.requestExc m)
    | .parseError m => .error (.jsonExc m)
    | .ok none => .error (.fetcherError (articleNotFoundMsg pageid))
    | .ok (some pd) =>
      if pd.missing then .error (.fetcherError (articleNotFoundMsg pageid))
      else .ok (mkArticle pd pageid (pd.extract.getD ""))
  (excMapErr
    (wikiHandler "Error fetching Wikipedia article: " "Error parsing Wikipedia article data: "
      "Unexpected error fetching Wikipedia article: ") body,
   [Call.introReq pageid])

/-- The suffix appended to a full extract truncated at 10000 characters. -/
def fullTruncMarker : String := "... [content truncated]"

/-- `get_full_article_content(pageid)`: full extract, capped at 10000
characters plus `fullTruncMarker`. -/
def get_full_article_content (env : WikiEnv) (pageid : Nat) :
    Except PyExc WikiArticle × List Call :=
  let body : Except PyExc WikiArticle :=
    match env.fullResp pageid with
    | .httpError m => .error (.requestExc m)
    | .parseError m => .error (.jsonExc m)
    | .ok none => .error (.fetcherError (articleNotFoundMsg pageid))
    | .ok (some pd) =>
      if pd.missing then .error (.fetcherError (articleNotFoundMsg pageid))
      else
        let full_content := pd.extract.getD ""
        let full_content :=
          if full_content.length > 10000 then
            pyTake full_content 10000 ++ fullTruncMarker
          else full_content
        .ok (mkArticle pd pageid full_content)
  (excMapErr
    (wikiHandler "Error fetching full Wikipedia article: "
      "Error parsing full Wikipedia article data: "
      "Unexpected error fetching full Wikipedia article: ") body,
   [Call.fullReq pageid])

/-- The link filter of `get_related_articles`: drop titles containing a
namespace separator or the literal substrings of meta pages. -/
def linkKeep (t : String) : Bool :=
  !(t.data.contains (Char.ofNat 58)) && !(pyContains t "Wikipedia")
    && !(pyContains t "Template") && !(pyContains t "Category")

/-- The candidate link titles of `get_related_articles`: filter, then take
the first `limit`. -/
def relevantLinks (rawLinks : List (Option String)) (limit : Nat) : List String :=
  ((rawLinks.map (fun l => l.getD "")).filter linkKeep).take limit

/-- The per-title resolution step of `get_related_articles`'s loop: an
exact-title search, then an intro fetch of the first hit; `none` when any
step raises (swallowed by the loop's bare `except`) or the search result
list is empty. -/
def resolveRelated (env : WikiEnv) (title : String) : Option WikiArticle :=
  match (search_wikipedia env ("intitle:\"" ++ title ++ "\"") 1).1 with
  | .error _ => none
  | .ok [] => none
  | .ok (r :: _) =>
    match (get_article_content env r.pageid).1 with
    | .error _ => none
    | .ok a => some a

/-- The enrichment loop of `get_related_articles`: best-effort, skipping a
title whenever its resolution fails. -/
def relatedLoop (env : WikiEnv) : List String → List WikiArticle × List Call
  | [] => ([], [])
  | title :: rest =>
    let s := search_wikipedia env ("intitle:\"" ++ title ++ "\"") 1
    match s.1 with
    | .error _ =>
      let next := relatedLoop env rest
      (next.1, s.2 ++ next.2)
    | .ok [] =>
      let next := relatedLoop env rest
      (next.1, s.2 ++ next.2)
    | .ok (r :: _) =>
      let a := get_article_content env r.pageid
      match a.1 with
      | .error _ =>
        let next := relatedLoop env rest
        (next.1, s.2 ++ a.2 ++ next.2)
      | .ok art =>
        let next := relatedLoop env rest
        (art :: next.1, s.2 ++ a.2 ++ next.2)

/-- `get_related_articles(pageid, limit)` (the loop itself cannot raise,
so only the links request is guarded by the handler chain). -/
def get_related_articles (env : WikiEnv) (pageid : Nat) (limit : Nat) :
    Except PyExc (List WikiArticle) × List Call :=
  match env.linksResp pageid with
  | .httpError m =>
    (.error (wikiHandler "Error fetching related articles: "
      "Error parsing related articles data: "
      "Unexpected error fetching related articles: " (.requestExc m)),
     [Call.linksReq pageid])
  | .parseError m =>
    (.error (wikiHandler "Error fetching related articles: "
      "Error parsing related articles data: "
      "Unexpected error fetching related articles: " (.jsonExc m)),
     [Call.linksReq pageid])
  | .ok rawLinks =>
    let loop := relatedLoop env (relevantLinks rawLinks limit)
    (.ok loop.1, Call.linksReq pageid :: loop.2)

/-- The topic metadata dict of `get_topic_content`. -/
structure TopicInfo where
  topic : String
  search_term : String
  num_results : Nat
  timestamp : String
  deriving DecidableEq

/-- One record returned by `get_topic_content`: the article dict, plus the
`related_articles` key that is added only to the first record when
`include_related` is set. -/
structure TopicArticle where
  article : WikiArticle
  related_articles : Option (List WikiArticle)
  deriving DecidableEq

/-- Outer handler of `get_topic_content`: `except ContentFetcherError:
raise` passes the fetcher's own kind through; anything else is wrapped. -/
def topicOuterHandler : PyExc → PyExc
  | .fetcherError m => .fetcherError m
  | .requestExc m => .fetcherError ("Error fetching topic content: " ++ m)
  | .jsonExc m => .fetcherError ("Error fetching topic content: " ++ m)
  | .scraperError m => .fetcherError ("Error fetching topic content: " ++ m)
  | .otherExc m => .fetcherError ("Error fetching topic content: " ++ m)

/-- The per-article loop of `get_topic_content`: the first search result is
fetched in full (plus, when requested, its related articles); the rest get
intro fetches; any fetch failure aborts the whole loop. -/
def topicLoop (env : WikiEnv) (include_related : Bool) :
    Bool → List SearchResult → Except PyExc (List TopicArticle) × List Call
  | _, [] => (.ok [], [])
  | isFirst, r :: rest =>
    let fetched :=
      if isFirst then get_full_article_content env r.pageid
      else get_article_content env r.pageid
    match fetched.1 with
    | .error e => (.error e, fetched.2)
    | .ok a =>
      if isFirst && include_related then
        let rel := get_related_articles env r.pageid 3
        match rel.1 with
        | .error e => (.error e, fetched.2 ++ rel.2)
        | .ok ras =>
          let next := topicLoop env include_related false rest
          match next.1 with
          | .error e => (.error e, fetched.2 ++ rel.2 ++ next.2)
          | .ok arts =>
            (.ok ({ article := a, related_articles := some ras } :: arts),
             fetched.2 ++ rel.2 ++ next.2)
      else
        let next := topicLoop env include_related false rest
        match next.1 with
        | .error e => (.error e, fetched.2 ++ next.2)
        | .ok arts =>
          (.ok ({ article := a, related_articles := none } :: arts),
           fetched.2 ++ next.2)

/-- `get_topic_content(topic, num_articles, include_related)`. -/
def get_topic_content (env : WikiEnv) (topic : String) (num_articles : Nat)
    (include_related : Bool) :
    Except PyExc (List TopicArticle × TopicInfo) × List Call :=
  let s := search_wikipedia env topic (num_articles + 2)
  match s.1 with
  | .error e => (.error (topicOuterHandler e), s.2)
  | .ok search_results =>
    let topic_info : TopicInfo :=
      { topic := topic
        search_term := topic
        num_results := search_results.length
        timestamp := env.nowIso }
    let loop := topicLoop env include_related true (search_results.take num_articles)
    match loop.1 with
    | .error e => (.error (topicOuterHandler e), s.2 ++ loop.2)
    | .ok articles => (.ok (articles, topic_info), s.2 ++ loop.2)

/- ### service.py -/

/-- The content-type lookup table of `get_content_type_prompt`. -/
def content_type_prompts : List (String × String) :=
  [("youtube_script",
    "\n            Create a YouTube script with:"
      ++ "\n            1. An attention-grabbing introduction"
      ++ "\n            2. Clear sections for each main point"
      ++ "\n            3. Call-to-action at the end"
      ++ "\n            4. Include [PAUSE] markers where appropriate for the presenter"
      ++ "\n            Format the script with INTRO, MAIN CONTENT, and OUTRO sections."
      ++ "\n        "),
   ("instagram_post",
    "\n            Create an Instagram post with:"
      ++ "\n            1. An engaging caption (max 2200 characters)"
      ++ "\n            2. Relevant hashtags (10-15)"
      ++ "\n            3. A call-to-action for engagement"
      ++ "\n            Format with CAPTION and HASHTAGS sections."
      ++ "\n        "),
   ("twitter_thread",
    "\n            Create a Twitter thread with:"
      ++ "\n            1. An attention-grabbing first tweet"
      ++ "\n            2. 5-8 follow-up tweets that expand on the topic"
      ++ "\n            3. A concluding tweet with call-to-action"
      ++ "\n            Format as numbered tweets with (1/X) format."
      ++ "\n        "),
   ("blog_post",
    "\n            Create a blog post with:"
      ++ "\n            1. Compelling headline"
      ++ "\n            2. Introduction that hooks the reader"
      ++ "\n            3. Subheadings for each major point"
      ++ "\n            4. Conclusion with key takeaways"
      ++ "\n            Format with proper HTML tags (<h1>, <h2>, <p>, etc.)."
      ++ "\n        "),
   ("newsletter",
    "\n            Create a newsletter with:"
      ++ "\n            1. Catchy subject line"
      ++ "\n            2. Brief introduction"
      ++ "\n            3. Main content with bullet points for readability"
      ++ "\n            4. Call-to-action at the end"
      ++ "\n            Format with SUBJECT LINE, BODY, and FOOTER sections."
      ++ "\n        ")]

/-- The fallback text of `get_content_type_prompt`. -/
def default_content_type_prompt : String :=
  "\n        Create well-structured content that covers the main points in an engaging way."
    ++ "\n        Include an introduction, main points, and conclusion."
    ++ "\n    "

/-- The normalized lookup key of `get_content_type_prompt`:
`content_type.lower().replace(" ", "_")`. -/
def contentTypeKey (content_type : String) : String :=
  pyReplace (pyLower content_type) " " "_"

/-- `get_content_type_prompt(content_type)`. -/
def get_content_type_prompt (content_type : String) : String :=
  (content_type_prompts.lookup (contentTypeKey content_type)).getD
    default_content_type_prompt

/-- The tone lookup table of `get_tone_prompt`. -/
def tone_prompts : List (String × String) :=
  [("informative",
    "Maintain an objective, educational tone. Focus on facts and clear explanations."),
   ("humorous",
    "Use wit, jokes, and playful language. Keep the content light-hearted and entertaining."),
   ("professional",
    "Maintain a formal, business-appropriate tone. Use industry terminology where relevant."),
   ("conversational",
    "Write as if having a friendly conversation. Use casual language and occasionally ask questions."),
   ("inspirational",
    "Use motivational language and storytelling. Focus on possibilities and positive outcomes.")]

/-- The fallback text of `get_tone_prompt`. -/
def default_tone_prompt : String :=
  "Write in a balanced, neutral tone that\x27s appropriate for general audiences."

/-- `get_tone_prompt(tone)`. -/
def get_tone_prompt (tone : String) : String :=
  (tone_prompts.lookup (pyLower tone)).getD default_tone_prompt

/-- The length lookup table of `get_length_guidance`. -/
def length_guidance_table : List (String × String) :=
  [("short",
    "Keep the content concise and to-the-point. Aim for about 250-300 words."),
   ("medium", "Provide moderate detail. Aim for about 500-700 words."),
   ("long", "Offer comprehensive coverage. Aim for about 1000-1500 words.")]

/-- The fallback text of `get_length_guidance`. -/
def default_length_guidance : String :=
  "Create content of appropriate length for the format, focusing on quality over quantity."

/-- `get_length_guidance(length)`. -/
def get_length_guidance (length : String) : String :=
  (length_guidance_table.lookup (pyLower length)).getD default_length_guidance

/-- The enumerated bullet list shared by the "Related Topics" and
"Additional Information" sections: title plus the first 300 characters of
the body. -/
def articleBullets : Nat → List WikiArticle → String
  | _, [] => ""
  | i, a :: rest =>
    "\n### " ++ toString (i + 1) ++ ". " ++ a.title ++ "\n"
      ++ pyTake a.content 300 ++ "...\n" ++ articleBullets (i + 1) rest

/-- The prompt-assembly portion of `transform_topic_content` (everything
before the resulting text is handed to `generate_content`); the spec's
`compose(records, collectionMetadata, contentType, tone, length)`. -/
def transformPrompt (articles : List TopicArticle) (topic_info : TopicInfo)
    (content_type tone length : String) : String :=
  let content_type_instructions := get_content_type_prompt content_type
  let tone_instructions := get_tone_prompt tone
  let length_instructions := get_length_guidance length
  let main_article := articles.head?
  let main_content := (main_article.map (fun a => a.article.content)).getD ""
  let main_title := (main_article.map (fun a => a.article.title)).getD ""
  let categories := (main_article.map (fun a => a.article.categories)).getD []
  let related_articles := ((main_article.map
    (fun a => a.related_articles.getD [])).getD [])
  let related_articles_content :=
    if related_articles.isEmpty then ""
    else "\n\n## Related Topics\n" ++ articleBullets 0 related_articles
  let additional_articles_content :=
    if articles.length > 1 then
      "\n\n## Additional Information\n"
        ++ articleBullets 0 ((articles.drop 1).map (fun a => a.article))
    else ""
  "\n        # Task: Transform Wikipedia Content into " ++ content_type
    ++ "\n\n        ## Topic Information"
    ++ "\n        - Main Topic: " ++ topic_info.topic
    ++ "\n        - Main Article: " ++ main_title
    ++ "\n\n        ## Content Requirements"
    ++ "\n        - Content Type: " ++ content_type
    ++ "\n        " ++ content_type_instructions
    ++ "\n        \n        - Tone: " ++ tone
    ++ "\n        " ++ tone_instructions
    ++ "\n        \n        - Length: " ++ length
    ++ "\n        " ++ length_instructions
    ++ "\n\n        ## Main Content"
    ++ "\n        " ++ main_content
    ++ "\n\n        " ++ related_articles_content
    ++ "\n        \n        " ++ additional_articles_content
    ++ "\n\n        ## Content Categories"
    ++ "\n        " ++ pyJoin ", " categories
    ++ "\n\n        ## Instructions"
    ++ "\n        1. Create a " ++ content_type ++ " about \"" ++ topic_info.topic
    ++ "\" using the provided information"
    ++ "\n        2. Maintain a " ++ tone ++ " tone throughout"
    ++ "\n        3. Format the content appropriately for the chosen content type"
    ++ "\n        4. Make the content engaging, accurate, and valuable to the audience"
    ++ "\n        5. Do not mention that this information comes from Wikipedia"
    ++ "\n        6. Focus on providing value and insights about the topic"
    ++ "\n        7. Use facts from the provided content but write in your own words"
    ++ "\n        "

/- ### Test environments and inputs (reddit side) -/

/-- A remote that reports HTTP 404 for every subreddit. -/
def env404 : RedditEnv :=
  { aboutResp := fun _ => .status404
    topResp := fun _ _ _ => .ok [] }

/-- A healthy remote for the subreddit `lean`. -/
def redditEnvOk : RedditEnv :=
  { aboutResp := fun _ =>
      .ok { display_name := some "lean", title := some "Lean", public_description := some "d"
            subscribers := some 10, created_utc := some 0, over18 := some false }
    topResp := fun _ _ _ =>
      .ok [{ title := some "t", score := some 1, url := some "u", selftext := some "body"
             num_comments := some 0, created_utc := some 0, permalink := some "/p"
             is_self := some true, author := some "alice" }] }

/-- A self post whose self-text is present but empty. -/
def rawSelfEmpty : RawPost :=
  { title := none, score := none, url := none, selftext := some ""
    num_comments := none, created_utc := none, permalink := none
    is_self := some true, author := none }

/-- A link (non-self) post whose self-text is present but empty. -/
def rawLinkEmpty : RawPost :=
  { title := none, score := none, url := none, selftext := some ""
    num_comments := none, created_utc := none, permalink := none
    is_self := some false, author := none }

/-- A self post with a short nonempty self-text. -/
def rawPostHello : RawPost :=
  { title := none, score := none, url := none, selftext := some "hello"
    num_comments := none, created_utc := none, permalink := none
    is_self := some true, author := none }

/-- A self post with empty self-text and an absent author key. -/
def rawDeletedAuthor : RawPost :=
  { title := none, score := none, url := none, selftext := some ""
    num_comments := none, created_utc := none, permalink := none
    is_self := some true, author := none }

/- ### Claim C3 -/

/-- Claim C3: contrary to the claim, the `RedditScraperError` raised for a
404 inside `fetch_subreddit_info`'s own `try` block is caught by that
function's final `except Exception` handler and re-wrapped, so the caller
receives the generically wrapped message rather than the original
"not found" message unchanged. -/
theorem C3_notFound_rewrapped :
    (fetch_subreddit_info env404 "ghostsub").1 =
      Except.error (PyExc.scraperError
        "Unexpected error fetching subreddit info: Subreddit r/ghostsub not found")
      ∧ (fetch_subreddit_info env404 "ghostsub").1 ≠
        Except.error (PyExc.scraperError "Subreddit r/ghostsub not found") := by
  constructor
  · rfl
  · intro h
    exact absurd (PyExc.scraperError.inj (Except.error.inj h)) (by decide)

/- ### Claim C4 -/

/-- Claim C4: an invalid `time_filter` makes `get_subreddit_top_posts` fail
with the invalid-parameter error before any network request is issued
(empty call trace), while a valid `time_filter` is passed into the
top-items request literally unchanged (once the subreddit-info call has
succeeded). -/
theorem C4_time_filter_gate (env : RedditEnv) (subreddit_name : String)
    (limit : Nat) (time_filter : String) :
    (time_filter ∉ valid_time_filters →
      get_subreddit_top_posts env subreddit_name limit time_filter =
        (Except.error (PyExc.scraperError
          ("Invalid time filter: " ++ time_filter
            ++ ". Valid options are: day, week, month, year, all")), [])) ∧
    (time_filter ∈ valid_time_filters →
      ∀ info, (fetch_subreddit_info env subreddit_name).1 = Except.ok info →
        Call.topReq subreddit_name time_filter limit ∈
          (get_subreddit_top_posts env subreddit_name limit time_filter).2) := by
  constructor
  · intro h
    simp only [get_subreddit_top_posts, if_neg h, excMapErr, topPostsOuterHandler]
  · intro h info hinfo
    simp only [get_subreddit_top_posts, if_pos h, hinfo]
    cases env.topResp subreddit_name time_filter limit with
    | ok rawPosts =>
      by_cases hempty : (rawPosts.map (normalizePost subreddit_name)).isEmpty
      · simp [hempty]
      · simp [hempty]
    | httpError m => simp
    | parseError m => simp

/-- Witness for C4 at a concrete environment and the valid filter `week`. -/
theorem C4_witness :
    Call.topReq "lean" "week" 5 ∈
      (get_subreddit_top_posts redditEnvOk "lean" 5 "week").2 :=
  (C4_time_filter_gate redditEnvOk "lean" 5 "week").2 (by decide)
    { name := "lean", title := "Lean", description := "d", subscribers := 10
      created_utc := 0, over18 := false, url := "https://www.reddit.com/r/lean/" }
    rfl

/- ### Claim C5 -/

/-- Claim C5 counterexample: a self post whose self-text is empty (length
at most 2000) is not passed through unchanged — the placeholder is
substituted. -/
theorem C5_counterexample :
    (rawSelfEmpty.selftext.getD "").length ≤ 2000 ∧
      (normalizePost "testsub" rawSelfEmpty).selftext ≠
        rawSelfEmpty.selftext.getD "" := by
  constructor
  · decide
  · decide

/-- Claim C5 as amended: self-text longer than 2000 characters becomes
exactly its first 2000 characters plus the fixed marker; self-text of
length at most 2000 is passed through unchanged unless it is the empty
self-text of a self post (which becomes the placeholder instead). -/
theorem C5_truncation (subreddit_name : String) (p : RawPost) :
    (2000 < (p.selftext.getD "").length →
      (normalizePost subreddit_name p).selftext =
        pyTake (p.selftext.getD "") 2000 ++ "... [truncated]") ∧
    ((p.selftext.getD "").length ≤ 2000 →
      ¬(p.selftext.getD "" = "" ∧ p.is_self.getD false = true) →
      (normalizePost subreddit_name p).selftext = p.selftext.getD "") := by
  constructor
  · intro h
    have hne : ¬(p.selftext.getD "" = "" ∧ p.is_self.getD false = true) := by
      rintro ⟨h1, -⟩
      rw [h1] at h
      exact absurd h (by decide)
    simp only [normalizePost, if_neg hne, if_pos h]
  · intro hle hne
    simp only [normalizePost, if_neg hne, if_neg (not_lt.mpr hle)]

/-- Witness for C5 at a short self-text that is passed through. -/
theorem C5_witness :
    (normalizePost "testsub" rawPostHello).selftext =
      rawPostHello.selftext.getD "" :=
  (C5_truncation "testsub" rawPostHello).2 (by decide) (by decide)

/- ### Claim C9 -/

/-- Claim C9 counterexample: an empty self-text on a non-self post does
not default to the placeholder — it stays empty. -/
theorem C9_counterexample :
    rawLinkEmpty.selftext = some "" ∧
      (normalizePost "testsub" rawLinkEmpty).selftext ≠
        "[No text content available]" := by
  constructor
  · rfl
  · decide

/-- Claim C9 as amended: the empty self-text of a self post (`is_self`
true) defaults to the fixed placeholder, and a missing author key defaults
to the sentinel `[deleted]`. -/
theorem C9_defaults (subreddit_name : String) (p : RawPost) :
    (p.selftext.getD "" = "" → p.is_self.getD false = true →
      (normalizePost subreddit_name p).selftext = "[No text content available]") ∧
    (p.author = none →
      (normalizePost subreddit_name p).author = "[deleted]") := by
  constructor
  · intro h1 h2
    simp only [normalizePost, if_pos (And.intro h1 h2), if_neg (by decide :
      ¬("[No text content available]" : String).length > 2000)]
  · intro h
    simp only [normalizePost, h, Option.getD_none]

/-- Witness for C9 at an empty self post with an absent author. -/
theorem C9_witness :
    (normalizePost "testsub" rawDeletedAuthor).selftext =
        "[No text content available]" ∧
      (normalizePost "testsub" rawDeletedAuthor).author = "[deleted]" :=
  ⟨(C9_defaults "testsub" rawDeletedAuthor).1 rfl rfl,
   (C9_defaults "testsub" rawDeletedAuthor).2 rfl⟩

/- ### Claim C6 -/

/-- Character count of a Python slice. -/
theorem pyTake_length (s : String) (n : Nat) :
    (pyTake s n).length = min n s.length := by
  show (s.data.take n).length = min n s.data.length
  exact List.length_take n s.data

/-- A small page payload whose extract is far below the cap. -/
def pdSmall : PageData :=
  { missing := false, title := some "T", extract := some "short text"
    fullurl := some "u", categories := [], touched := some "ts" }

/-- The article `get_full_article_content` builds from `pdSmall`. -/
def c6Art : WikiArticle :=
  { title := "T", content := "short text", url := "u", categories := []
    last_modified := "ts", pageid := 7 }

/-- A healthy wiki remote serving `pdSmall` for every page. -/
def wikiEnvC6 : WikiEnv :=
  { searchResp := fun _ _ => .ok []
    introResp := fun _ => .ok (some pdSmall)
    fullResp := fun _ => .ok (some pdSmall)
    linksResp := fun _ => .ok []
    nowIso := "now" }

/-- Claim C6: on a successful full fetch, an extract over 10000 characters
yields a body of exactly the first 10000 characters plus the truncation
marker — never longer than that cap — while an extract within the cap
passes through; a successful intro fetch never truncates its extract. -/
theorem C6_body_caps (env : WikiEnv) (pageid : Nat) :
    (∀ pd art, env.fullResp pageid = RemoteOutcome.ok (some pd) →
      (get_full_article_content env pageid).1 = Except.ok art →
      (10000 < (pd.extract.getD "").length →
        art.content = pyTake (pd.extract.getD "") 10000 ++ fullTruncMarker ∧
          art.content.length = 10000 + fullTruncMarker.length) ∧
      ((pd.extract.getD "").length ≤ 10000 → art.content = pd.extract.getD "") ∧
      art.content.length ≤ 10000 + fullTruncMarker.length) ∧
    (∀ pd art, env.introResp pageid = RemoteOutcome.ok (some pd) →
      (get_article_content env pageid).1 = Except.ok art →
      art.content = pd.extract.getD "") := by
  constructor
  · intro pd art hfull hok
    simp only [get_full_article_content, hfull] at hok
    by_cases hm : pd.missing
    · simp [hm, excMapErr] at hok
    · simp only [hm, if_false, Bool.false_eq_true, excMapErr] at hok
      obtain rfl : _ = art := Except.ok.inj hok
      by_cases h10 : 10000 < (pd.extract.getD "").length
      · refine ⟨fun _ => ⟨?_, ?_⟩, fun hle => absurd h10 (not_lt.mpr hle), ?_⟩
        · simp [mkArticle, if_pos h10]
        · simp [mkArticle, if_pos h10, String.length_append, pyTake_length,
            Nat.min_eq_left (le_of_lt h10)]
        · simp [mkArticle, if_pos h10, String.length_append, pyTake_length,
            Nat.min_eq_left (le_of_lt h10)]
      · refine ⟨fun h => absurd h h10, fun _ => ?_, ?_⟩
        · simp [mkArticle, if_neg h10]
        · simp only [mkArticle, if_neg h10]
          exact le_trans (not_lt.mp h10) (Nat.le_add_right _ _)
  · intro pd art hintro hok
    simp only [get_article_content, hintro] at hok
    by_cases hm : pd.missing
    · simp [hm, excMapErr] at hok
    · simp only [hm, if_false, Bool.false_eq_true, excMapErr] at hok
      obtain rfl : _ = art := Except.ok.inj hok
      rfl

/-- Witness for C6 at a concrete page with a short extract. -/
theorem C6_witness : c6Art.content = pdSmall.extract.getD "" :=
  ((C6_body_caps wikiEnvC6 7).1 pdSmall c6Art rfl rfl).2.1 (by decide)

/- ### Claim C7 -/

/-- Claim C7: each of the three selector lookups is total — an unknown key
(after the source's normalization) resolves to the documented default
instruction text, a known key to that key's entry — and the content-type
normalization lowercases and replaces spaces with underscores. -/
theorem C7_lookup_defaults :
    (∀ content_type,
      content_type_prompts.lookup (contentTypeKey content_type) = none →
      get_content_type_prompt content_type = default_content_type_prompt) ∧
    (∀ content_type val,
      content_type_prompts.lookup (contentTypeKey content_type) = some val →
      get_content_type_prompt content_type = val) ∧
    (∀ tone, tone_prompts.lookup (pyLower tone) = none →
      get_tone_prompt tone = default_tone_prompt) ∧
    (∀ tone val, tone_prompts.lookup (pyLower tone) = some val →
      get_tone_prompt tone = val) ∧
    (∀ length, length_guidance_table.lookup (pyLower length) = none →
      get_length_guidance length = default_length_guidance) ∧
    (∀ length val, length_guidance_table.lookup (pyLower length) = some val →
      get_length_guidance length = val) ∧
    contentTypeKey "YouTube Script" = "youtube_script" ∧
    get_length_guidance "SHORT" =
      "Keep the content concise and to-the-point. Aim for about 250-300 words." := by
  refine ⟨fun ct h => ?_, fun ct val h => ?_, fun t h => ?_, fun t val h => ?_,
    fun l h => ?_, fun l val h => ?_, by decide, by decide⟩
  · simp [get_content_type_prompt, h]
  · simp [get_content_type_prompt, h]
  · simp [get_tone_prompt, h]
  · simp [get_tone_prompt, h]
  · simp [get_length_guidance, h]
  · simp [get_length_guidance, h]

/-- Witness for C7 at unknown selector values. -/
theorem C7_witness :
    get_content_type_prompt "mystery form" = default_content_type_prompt ∧
      get_tone_prompt "sarcastic" = default_tone_prompt ∧
      get_length_guidance "epic" = default_length_guidance :=
  ⟨C7_lookup_defaults.1 "mystery form" (by decide),
   C7_lookup_defaults.2.2.1 "sarcastic" (by decide),
   C7_lookup_defaults.2.2.2.2.1 "epic" (by decide)⟩

/- ### Claim C8 -/

/-- The enrichment loop keeps exactly the successfully resolved titles, in
order. -/
theorem relatedLoop_fst (env : WikiEnv) :
    ∀ titles, (relatedLoop env titles).1 = titles.filterMap (resolveRelated env)
  | [] => rfl
  | title :: rest => by
    have ih := relatedLoop_fst env rest
    simp only [relatedLoop, List.filterMap_cons, resolveRelated]
    cases h : (search_wikipedia env ("intitle:\"" ++ title ++ "\"") 1).1 with
    | error e => simp [h, ih]
    | ok results =>
      cases results with
      | nil => simp [h, ih]
      | cons r rs =>
        cases ha : (get_article_content env r.pageid).1 with
        | error e => simp [h, ha, ih]
        | ok art => simp [h, ha, ih]

/-- Splitting a list by whether `f` succeeds on an element. -/
theorem filterMap_length_split {α β : Type} (f : α → Option β) :
    ∀ l : List α,
      (l.filterMap f).length + (l.filter fun a => (f a).isNone).length = l.length
  | [] => rfl
  | a :: l => by
    have ih := filterMap_length_split f l
    cases h : f a with
    | none =>
      simp only [List.filterMap_cons, List.filter_cons, h, Option.isNone_none,
        if_pos, List.length_cons]
      omega
    | some b =>
      simp only [List.filterMap_cons, List.filter_cons, h, Option.isNone_some,
        Bool.false_eq_true, if_false, List.length_cons]
      omega

/-- The number of candidate link titles whose best-effort resolution
fails. -/
def failedResolutions (env : WikiEnv) (titles : List String) : Nat :=
  (titles.filter fun t => (resolveRelated env t).isNone).length

/-- Claim C8: when the links request succeeds, `get_related_articles`
returns normally (per-link failures are swallowed, never aborting the
call) with exactly the successfully resolved candidates, and the returned
list's length is at most the requested limit minus the number of failed
resolutions. -/
theorem C8_best_effort (env : WikiEnv) (pageid limit : Nat)
    (rawLinks : List (Option String))
    (hlinks : env.linksResp pageid = RemoteOutcome.ok rawLinks) :
    (get_related_articles env pageid limit).1 =
      Except.ok ((relevantLinks rawLinks limit).filterMap (resolveRelated env)) ∧
    ((relevantLinks rawLinks limit).filterMap (resolveRelated env)).length +
        failedResolutions env (relevantLinks rawLinks limit) =
      (relevantLinks rawLinks limit).length ∧
    ((relevantLinks rawLinks limit).filterMap (resolveRelated env)).length ≤
      limit - failedResolutions env (relevantLinks rawLinks limit) := by
  refine ⟨?_, filterMap_length_split _ _, ?_⟩
  · simp [get_related_articles, hlinks, relatedLoop_fst]
  · have hsplit := filterMap_length_split (resolveRelated env)
      (relevantLinks rawLinks limit)
    have htake : (relevantLinks rawLinks limit).length ≤ limit :=
      List.length_take_le limit _
    unfold failedResolutions
    omega

/-- A wiki remote with three candidate links of which the middle one fails
to resolve (its exact-title search comes back empty). -/
def wikiEnvC8 : WikiEnv :=
  { searchResp := fun q _ =>
      if q = "intitle:\"Beta\"" then .ok []
      else .ok [{ title := some "Hit", pageid := some 5, snippet := some ""
                  score := some 0, size := some 0, wordcount := some 0
                  timestamp := some "" }]
    introResp := fun _ => .ok (some pdSmall)
    fullResp := fun _ => .ok (some pdSmall)
    linksResp := fun _ => .ok [some "Alpha", some "Beta", some "Gamma"]
    nowIso := "now" }

/-- Witness for C8: one failed resolution among three candidates. -/
theorem C8_witness :
    ((relevantLinks [some "Alpha", some "Beta", some "Gamma"] 3).filterMap
        (resolveRelated wikiEnvC8)).length ≤
      3 - failedResolutions wikiEnvC8
        (relevantLinks [some "Alpha", some "Beta", some "Gamma"] 3) :=
  (C8_best_effort wikiEnvC8 42 3 [some "Alpha", some "Beta", some "Gamma"] rfl).2.2

/- ### Claim C1 -/

/-- A record fetched through `get_article_content` (intro only), carrying
no `related_articles` key. -/
def introFetched (env : WikiEnv) (r : SearchResult) (a : TopicArticle) : Prop :=
  (get_article_content env r.pageid).1 = Except.ok a.article ∧
    a.related_articles = none

/-- Whether the first record (and only it) carries the
`related_articles` key. -/
def onlyFirstHasRelated : List TopicArticle → Bool
  | [] => true
  | a :: rest =>
    a.related_articles.isSome && rest.all fun b => b.related_articles.isNone

/-- Past the first result, a successful topic loop intro-fetches every
search result, in order. -/
theorem topicLoop_rest_ok (env : WikiEnv) (inc : Bool) :
    ∀ l arts, (topicLoop env inc false l).1 = Except.ok arts →
      List.Forall₂ (introFetched env) l arts
  | [], arts => by
    intro h
    obtain rfl : ([] : List TopicArticle) = arts := Except.ok.inj h
    exact List.Forall₂.nil
  | r :: rest, arts => by
    intro h
    simp only [topicLoop, Bool.false_and, if_false, Bool.false_eq_true] at h
    cases hf : (get_article_content env r.pageid).1 with
    | error e => simp [hf] at h
    | ok a =>
      simp only [hf] at h
      cases hn : (topicLoop env inc false rest).1 with
      | error e => simp [hn] at h
      | ok arts' =>
        simp only [hn] at h
        obtain rfl : _ = arts := Except.ok.inj h
        exact List.Forall₂.cons ⟨hf, rfl⟩ (topicLoop_rest_ok env inc rest arts' hn)

/-- Intro-fetched records carry no `related_articles` key. -/
theorem forall₂_related_none (env : WikiEnv) {l : List SearchResult}
    {as : List TopicArticle} (h : List.Forall₂ (introFetched env) l as) :
    (as.all fun b => b.related_articles.isNone) = true := by
  induction h with
  | nil => rfl
  | cons ha _ ih => simp [List.all_cons, ha.2, ih]

/-- Unfolding of the topic loop at its first element. -/
theorem topicLoop_cons_first (env : WikiEnv) (r : SearchResult)
    (rest : List SearchResult) :
    (topicLoop env true true (r :: rest)).1 =
      match (get_full_article_content env r.pageid).1 with
      | .error e => .error e
      | .ok a =>
        match (get_related_articles env r.pageid 3).1 with
        | .error e => .error e
        | .ok ras =>
          match (topicLoop env true false rest).1 with
          | .error e => .error e
          | .ok arts =>
            .ok ({ article := a, related_articles := some ras } :: arts) := by
  simp only [topicLoop, Bool.and_self, if_true]
  cases hf : (get_full_article_content env r.pageid).1 with
  | error e => simp [hf]
  | ok a =>
    cases hrel : (get_related_articles env r.pageid 3).1 with
    | error e => simp [hrel]
    | ok ras =>
      cases hn : (topicLoop env true false rest).1 with
      | error e => simp [hn]
      | ok arts => simp [hn]

/-- Claim C1: with `include_related = true` and a search yielding at least
`n` hits, a successful `get_topic_content` issues the initial search with
limit `n + 2` (first call in the trace), returns exactly `n` records —
the first obtained from the full fetch of the first hit with its
related-articles list attached, the rest intro-fetched from the following
hits in search order — and only the first record carries the
`related_articles` key. -/
theorem C1_topic_content (env : WikiEnv) (topic : String) (n : Nat)
    (results : List SearchResult) (arts : List TopicArticle)
    (info : TopicInfo) (t : List Call)
    (hn : 0 < n)
    (hsearch : (search_wikipedia env topic (n + 2)).1 = Except.ok results)
    (hlen : n ≤ results.length)
    (hrun : get_topic_content env topic n true = (Except.ok (arts, info), t)) :
    arts.length = n ∧
    t.head? = some (Call.searchReq topic (n + 2)) ∧
    onlyFirstHasRelated arts = true ∧
    ∃ r0 rest a0 ras arts',
      results.take n = r0 :: rest ∧
      arts = { article := a0, related_articles := some ras } :: arts' ∧
      (get_full_article_content env r0.pageid).1 = Except.ok a0 ∧
      (get_related_articles env r0.pageid 3).1 = Except.ok ras ∧
      List.Forall₂ (introFetched env) rest arts' := by
  simp only [get_topic_content, hsearch] at hrun
  cases hloop : (topicLoop env true true (results.take n)).1 with
  | error e => simp [hloop] at hrun
  | ok arts2 =>
    simp only [hloop, Prod.mk.injEq, Except.ok.injEq] at hrun
    obtain ⟨⟨rfl, rfl⟩, ht⟩ := hrun
    obtain ⟨m, rfl⟩ : ∃ m, n = m + 1 :=
      ⟨n - 1, (Nat.succ_pred_eq_of_pos hn).symm⟩
    cases results with
    | nil => exact absurd hlen (by simp)
    | cons r0 rs =>
      rw [List.take_succ_cons] at hloop
      rw [topicLoop_cons_first] at hloop
      cases hful : (get_full_article_content env r0.pageid).1 with
      | error e => rw [hful] at hloop; exact absurd hloop (by simp)
      | ok a0 =>
        rw [hful] at hloop
        cases hrel : (get_related_articles env r0.pageid 3).1 with
        | error e => rw [hrel] at hloop; exact absurd hloop (by simp)
        | ok ras =>
          rw [hrel] at hloop
          cases hrest : (topicLoop env true false (rs.take m)).1 with
          | error e => rw [hrest] at hloop; exact absurd hloop (by simp)
          | ok arts' =>
            rw [hrest] at hloop
            obtain rfl : _ = arts2 := Except.ok.inj hloop
            have hf2 := topicLoop_rest_ok env true (rs.take m) arts' hrest
            have hlen' : arts'.length = m := by
              rw [← List.Forall₂.length_eq hf2, List.length_take]
              exact Nat.min_eq_left (by simpa using hlen)
            refine ⟨by simp [hlen'], ?_, ?_, ?_⟩
            · rw [← ht]; rfl
            · simp only [onlyFirstHasRelated, Option.isSome_some,
                Bool.true_and]
              exact forall₂_related_none env hf2
            · exact ⟨r0, rs.take m, a0, ras, arts',
                List.take_succ_cons .., rfl, hful, hrel, hf2⟩

/-- Search hits served by the C1 test remote. -/
def c1Results : List SearchResult :=
  [{ title := "T1", pageid := 1, snippet := "", score := 0, size := 0
     wordcount := 0, timestamp := "" },
   { title := "T2", pageid := 2, snippet := "", score := 0, size := 0
     wordcount := 0, timestamp := "" },
   { title := "T3", pageid := 3, snippet := "", score := 0, size := 0
     wordcount := 0, timestamp := "" },
   { title := "T4", pageid := 4, snippet := "", score := 0, size := 0
     wordcount := 0, timestamp := "" },
   { title := "T5", pageid := 5, snippet := "", score := 0, size := 0
     wordcount := 0, timestamp := "" }]

/-- A healthy wiki remote answering five hits for every search, serving
`pdSmall` for every page, and listing no outbound links. -/
def wikiEnvC1 : WikiEnv :=
  { searchResp := fun _ _ =>
      .ok [{ title := some "T1", pageid := some 1, snippet := some ""
             score := some 0, size := some 0, wordcount := some 0
             timestamp := some "" },
           { title := some "T2", pageid := some 2, snippet := some ""
             score := some 0, size := some 0, wordcount := some 0
             timestamp := some "" },
           { title := some "T3", pageid := some 3, snippet := some ""
             score := some 0, size := some 0, wordcount := some 0
             timestamp := some "" },
           { title := some "T4", pageid := some 4, snippet := some ""
             score := some 0, size := some 0, wordcount := some 0
             timestamp := some "" },
           { title := some "T5", pageid := some 5, snippet := some ""
             score := some 0, size := some 0, wordcount := some 0
             timestamp := some "" }]
    introResp := fun _ => .ok (some pdSmall)
    fullResp := fun _ => .ok (some pdSmall)
    linksResp := fun _ => .ok []
    nowIso := "now" }

/-- The article served by `wikiEnvC1` for page `pid`. -/
def c1Article (pid : Nat) : WikiArticle :=
  { title := "T", content := "short text", url := "u", categories := []
    last_modified := "ts", pageid := pid }

/-- The records `get_topic_content` produces against `wikiEnvC1`. -/
def c1Arts : List TopicArticle :=
  [{ article := c1Article 1, related_articles := some [] },
   { article := c1Article 2, related_articles := none },
   { article := c1Article 3, related_articles := none }]

/-- The topic metadata produced against `wikiEnvC1`. -/
def c1Info : TopicInfo :=
  { topic := "quantum computing", search_term := "quantum computing"
    num_results := 5, timestamp := "now" }

/-- The request trace produced against `wikiEnvC1`. -/
def c1Trace : List Call :=
  [.searchReq "quantum computing" 5, .fullReq 1, .linksReq 1,
   .introReq 2, .introReq 3]

/-- Witness for C1 at a concrete remote with five hits and three
requested articles. -/
theorem C1_witness : onlyFirstHasRelated c1Arts = true :=
  (C1_topic_content wikiEnvC1 "quantum computing" 3 c1Results c1Arts c1Info
    c1Trace (by decide) rfl (by decide) rfl).2.2.1

/- ### Claim C2 -/

/-- Claim C2: prompt composition is a pure function of its five inputs —
identical inputs yield identical prompt text (the embedding itself
witnesses that composition involves no randomness and no remote call: it
is a function of the records, metadata and selectors alone). -/
theorem C2_compose_deterministic (as1 as2 : List TopicArticle)
    (i1 i2 : TopicInfo) (ct1 ct2 tn1 tn2 ln1 ln2 : String)
    (h : (as1, i1, ct1, tn1, ln1) = (as2, i2, ct2, tn2, ln2)) :
    transformPrompt as1 i1 ct1 tn1 ln1 = transformPrompt as2 i2 ct2 tn2 ln2 := by
  simp only [Prod.mk.injEq] at h
  obtain ⟨rfl, rfl, rfl, rfl, rfl⟩ := h
  rfl

/-- Witness for C2 at concrete identical inputs. -/
theorem C2_witness :
    transformPrompt c1Arts c1Info "blog_post" "informative" "medium" =
      transformPrompt c1Arts c1Info "blog_post" "informative" "medium" :=
  C2_compose_deterministic c1Arts c1Arts c1Info c1Info "blog_post" "blog_post"
    "informative" "informative" "medium" "medium" rfl

/- ### Claim C10 -/

/-- Claim C10: on an empty records list, prompt assembly still produces a
well-formed prompt — the primary record's title, content and categories
default to empty, and the related and additional sections are the empty
string — rather than raising on the unguarded index. -/
theorem C10_empty_records (info : TopicInfo)
    (content_type tone length : String) :
    transformPrompt [] info content_type tone length =
      "\n        # Task: Transform Wikipedia Content into " ++ content_type
        ++ "\n\n        ## Topic Information"
        ++ "\n        - Main Topic: " ++ info.topic
        ++ "\n        - Main Article: " ++ ""
        ++ "\n\n        ## Content Requirements"
        ++ "\n        - Content Type: " ++ content_type
        ++ "\n        " ++ get_content_type_prompt content_type
        ++ "\n        \n        - Tone: " ++ tone
        ++ "\n        " ++ get_tone_prompt tone
        ++ "\n        \n        - Length: " ++ length
        ++ "\n        " ++ get_length_guidance length
        ++ "\n\n        ## Main Content"
        ++ "\n        " ++ ""
        ++ "\n\n        " ++ ""
        ++ "\n        \n        " ++ ""
        ++ "\n\n        ## Content Categories"
        ++ "\n        " ++ ""
        ++ "\n\n        ## Instructions"
        ++ "\n        1. Create a " ++ content_type ++ " about \"" ++ info.topic
        ++ "\" using the provided information"
        ++ "\n        2. Maintain a " ++ tone ++ " tone throughout"
        ++ "\n        3. Format the content appropriately for the chosen content type"
        ++ "\n        4. Make the content engaging, accurate, and valuable to the audience"
        ++ "\n        5. Do not mention that this information comes from Wikipedia"
        ++ "\n        6. Focus on providing value and insights about the topic"
        ++ "\n        7. Use facts from the provided content but write in your own words"
        ++ "\n        " := rfl
